import Mathlib

/-!
Verification of the fixagent-verifier trial execution engine.

Shallow embedding of the core components:
  - ExecResult / DockerEnvironment.exec / upload_file / download_file
    (src/fixagent_verifier/environments/docker.py, base.py)
  - DockerEnvironment.setup_pr_workspace (docker.py)
  - GradleVerifier.verify (src/fixagent_verifier/verifier/gradle.py)
  - TrialResult and run_trial (src/fixagent_verifier/models/trial.py,
    src/fixagent_verifier/utils/trial.py)
  - the result.txt "verified" judgement of the compose CLI surface
    (src/fixagent_verifier/cli/compose_commands.py)

Effectful calls (command execution inside the container, subprocess
invocation) are abstracted as oracle parameters: each call site receives
either a normal result or a Python exception, and the embedded function
computes exactly what the source computes from it.  Wall-clock durations
(time.time() differences, floats in the source) are abstracted as Nat
parameters; no claim concerns their value.  Alongside its return value,
each embedded function that the claims observe produces a trace of the
externally visible events it performs (exec calls made, artifacts
written, teardown invoked), in order.
-/

/-- Result of command execution in an environment
(ExecResult dataclass, environments/base.py). -/
structure ExecResult where
  stdout : String
  stderr : String
  return_code : Int
  duration_sec : Nat
deriving Repr, DecidableEq

/-- Raw demuxed output of the docker backend's exec_run: each stream may be
absent (None), and an exit code. -/
structure RawExecOutput where
  stdout? : Option String
  stderr? : Option String
  exit_code : Int
deriving Repr, DecidableEq

/-- A Python exception as observed by an except-block: type name, str(e),
and the formatted traceback. -/
structure PyExn where
  ty : String
  msg : String
  tb : String
deriving Repr, DecidableEq

/-- DockerEnvironment.exec (docker.py lines 148-192).  Raises (models the
RuntimeError) when the container is absent; otherwise runs the backend call,
converting a backend exception into a synthetic ExecResult with
return_code 1, empty stdout and str(e) in stderr, and decoding absent
output streams as the empty string. -/
def dockerExec (containerPresent : Bool) (backend : Except PyExn RawExecOutput)
    (elapsed : Nat) : Except String ExecResult :=
  if containerPresent = false then
    Except.error "Container not started"
  else
    match backend with
    | Except.ok raw =>
        Except.ok
          { stdout := raw.stdout?.getD ""
            stderr := raw.stderr?.getD ""
            return_code := raw.exit_code
            duration_sec := elapsed }
    | Except.error e =>
        Except.ok
          { stdout := ""
            stderr := e.msg
            return_code := 1
            duration_sec := elapsed }

/-- Outcome of the docker cp subprocess used by file transfer: collected
exit status and captured streams, all discarded by the source. -/
structure SubprocOutcome where
  return_code : Int
  stdout : String
  stderr : String
deriving Repr, DecidableEq

/-- DockerEnvironment.upload_file (docker.py lines 194-204): raises when the
container is absent, otherwise runs docker cp and returns without inspecting
the subprocess outcome. -/
def upload_file (containerPresent : Bool) (subproc : SubprocOutcome) :
    Except String Unit :=
  if containerPresent = false then Except.error "Container not started"
  else
    let _ := subproc
    Except.ok ()

/-- DockerEnvironment.download_file (docker.py lines 206-219): raises when
the container is absent, otherwise creates the local parent directory, runs
docker cp and returns without inspecting the subprocess outcome. -/
def download_file (containerPresent : Bool) (subproc : SubprocOutcome) :
    Except String Unit :=
  if containerPresent = false then Except.error "Container not started"
  else
    let _ := subproc
    Except.ok ()

/-- The five git steps of setup_pr_workspace, in source order. -/
inductive SetupStep
  | clone
  | fetch
  | checkout
  | branch
  | merge
deriving Repr, DecidableEq

/-- DockerEnvironment.setup_pr_workspace (docker.py lines 99-146).  The
oracle gives each git command's ExecResult (exec never raises once the
container runs).  Returns the outcome (ok, or the raised RuntimeError's
message) together with the ordered trace of steps whose exec call was made.
The merge step's result is read but never checked. -/
def setup_pr_workspace (containerPresent : Bool)
    (execStep : SetupStep → ExecResult) :
    Except String Unit × List SetupStep :=
  if containerPresent = false then
    (Except.error "Container not started", [])
  else
    let r1 := execStep SetupStep.clone
    if r1.return_code ≠ 0 then
      (Except.error ("Failed to clone repository: " ++ r1.stderr),
       [SetupStep.clone])
    else
      let r2 := execStep SetupStep.fetch
      if r2.return_code ≠ 0 then
        (Except.error ("Failed to fetch PR: " ++ r2.stderr),
         [SetupStep.clone, SetupStep.fetch])
      else
        let r3 := execStep SetupStep.checkout
        if r3.return_code ≠ 0 then
          (Except.error ("Failed to checkout target commit: " ++ r3.stderr),
           [SetupStep.clone, SetupStep.fetch, SetupStep.checkout])
        else
          let r4 := execStep SetupStep.branch
          if r4.return_code ≠ 0 then
            (Except.error ("Failed to create merge branch: " ++ r4.stderr),
             [SetupStep.clone, SetupStep.fetch, SetupStep.checkout,
              SetupStep.branch])
          else
            let _r5 := execStep SetupStep.merge
            (Except.ok (),
             [SetupStep.clone, SetupStep.fetch, SetupStep.checkout,
              SetupStep.branch, SetupStep.merge])

/-- Result of compilation/test verification (VerificationResult model,
models/trial.py). -/
structure VerificationResult where
  success : Bool
  compilation_output : String
  duration_sec : Nat
  error_message : Option String
  tasks_run : List String
deriving Repr, DecidableEq

/-- Prefix test on character lists (Python substring search helper). -/
def listIsPrefixOf : List Char → List Char → Bool
  | [], _ => true
  | _ :: _, [] => false
  | a :: as, b :: bs => a == b && listIsPrefixOf as bs

/-- Python's substring containment (the in operator on str):
containsSubstr hay needle is true when needle occurs in hay. -/
def containsSubstr (hay needle : String) : Bool :=
  (List.range (hay.toList.length + 1)).any
    (fun i => listIsPrefixOf needle.toList (hay.toList.drop i))

/-- The exec calls GradleVerifier.verify can make, in source order:
the wrapper probe, the chmod on the wrapper, and the gradle build. -/
inductive VerifierCall
  | wrapperCheck
  | chmodWrapper
  | build
deriving Repr, DecidableEq

/-- Oracle for the three environment.exec call sites inside
GradleVerifier.verify: each call either returns an ExecResult or raises. -/
structure VerifierEnvBehavior where
  wrapperCheck : Except PyExn ExecResult
  chmodWrapper : Except PyExn ExecResult
  build : Except PyExn ExecResult
deriving Repr

/-- The build tail of GradleVerifier.verify (gradle.py lines 48-73): by this
point tasks_run has been set to clean and build; the build exec either
returns a result, mapped to success iff exit code zero with stdout then
stderr concatenated, or raises, which the outer except converts into a
failed VerificationResult carrying str(e). -/
def gradleRunBuild (buildOutcome : Except PyExn ExecResult) (elapsed : Nat)
    (callsSoFar : List VerifierCall) : VerificationResult × List VerifierCall :=
  match buildOutcome with
  | Except.error e =>
      ({ success := false
         compilation_output := e.msg
         duration_sec := elapsed
         error_message := some ("Verification exception: " ++ e.msg)
         tasks_run := ["clean", "build"] },
       callsSoFar ++ [VerifierCall.build])
  | Except.ok r =>
      ({ success := r.return_code == 0
         compilation_output := r.stdout ++ "\n" ++ r.stderr
         duration_sec := elapsed
         error_message :=
           if r.return_code == 0 then none
           else some "Compilation failed - see output"
         tasks_run := ["clean", "build"] },
       callsSoFar ++ [VerifierCall.build])

/-- GradleVerifier.verify (gradle.py lines 13-73), with the trace of exec
calls actually made.  Probes for the wrapper; if present, chmods it (a
nonzero chmod exit short-circuits with a failed result); then runs the
single gradle build command.  Any exception from an exec call is caught by
the enclosing except-block and converted into a failed VerificationResult
whose output is str(e) — at that point tasks_run is empty unless the build
call had already been reached. -/
def verifyRun (env : VerifierEnvBehavior) (elapsed : Nat) :
    VerificationResult × List VerifierCall :=
  match env.wrapperCheck with
  | Except.error e =>
      ({ success := false
         compilation_output := e.msg
         duration_sec := elapsed
         error_message := some ("Verification exception: " ++ e.msg)
         tasks_run := [] },
       [VerifierCall.wrapperCheck])
  | Except.ok wc =>
      if containsSubstr wc.stdout "yes" then
        match env.chmodWrapper with
        | Except.error e =>
            ({ success := false
               compilation_output := e.msg
               duration_sec := elapsed
               error_message := some ("Verification exception: " ++ e.msg)
               tasks_run := [] },
             [VerifierCall.wrapperCheck, VerifierCall.chmodWrapper])
        | Except.ok ch =>
            if ch.return_code ≠ 0 then
              ({ success := false
                 compilation_output := ch.stderr
                 duration_sec := elapsed
                 error_message := some "Failed to make gradlew executable"
                 tasks_run := [] },
               [VerifierCall.wrapperCheck, VerifierCall.chmodWrapper])
            else
              gradleRunBuild env.build elapsed
                [VerifierCall.wrapperCheck, VerifierCall.chmodWrapper]
      else
        gradleRunBuild env.build elapsed [VerifierCall.wrapperCheck]

/-- Exception information recorded on a failed trial (ExceptionInfo model,
models/trial.py). -/
structure ExceptionInfo where
  exception_type : String
  exception_message : String
  traceback : String
deriving Repr, DecidableEq

/-- Result of a verification trial (TrialResult model, models/trial.py).
Timestamps are abstract Nat ticks; trial_id is the UUID rendered as a
string and trial_dir a path string. -/
structure TrialResult where
  trial_id : String
  trial_name : String
  task_id : String
  pr_url : String
  pr_number : Nat
  verification_result : Option VerificationResult
  exception_info : Option ExceptionInfo
  started_at : Option Nat
  finished_at : Option Nat
  trial_dir : String
deriving Repr, DecidableEq

/-- TrialResult.success property (models/trial.py lines 89-96):
exception_info is None and verification_result is not None and
verification_result.success. -/
def TrialResult.success (r : TrialResult) : Bool :=
  match r.exception_info, r.verification_result with
  | none, some v => v.success
  | _, _ => false

/-- Information about a GitHub pull request (PRInfo model, models/pr.py). -/
structure PRInfo where
  pr_url : String
  repo_owner : String
  repo_name : String
  pr_number : Nat
  source_branch : String
  source_commit : String
  source_repo_url : String
  target_branch : String
  target_commit : String
  target_repo_url : String
  title : String
  state : String
deriving Repr, DecidableEq

/-- Task configuration (TaskConfig model, models/task.py).  The float
timeout is abstracted as Nat. -/
structure TaskConfig where
  task_id : String
  pr_url : String
  project_type : String
  timeout_sec : Nat
  cpus : Nat
  memory_mb : Nat
  allow_internet : Bool
  custom_verify_script : Option String
  priority : String
deriving Repr, DecidableEq

/-- Docker environment configuration (EnvironmentConfig, models/trial.py). -/
structure EnvironmentConfig where
  type : String
  cpus : Nat
  memory_mb : Nat
  allow_internet : Bool
deriving Repr, DecidableEq

/-- Verifier configuration (VerifierConfig, models/trial.py). -/
structure VerifierConfig where
  timeout_sec : Nat
  project_type : String
  custom_script : Option String
deriving Repr, DecidableEq

/-- Configuration for a single verification trial (TrialConfig,
models/trial.py). -/
structure TrialConfig where
  trial_id : String
  trial_name : String
  task : TaskConfig
  pr_info : PRInfo
  environment : EnvironmentConfig
  verifier : VerifierConfig
  output_dir : String
  retry_attempts : Nat
deriving Repr, DecidableEq

/-- Externally visible events of run_trial, in the order the source
performs them: writing config.json, writing exception.txt, invoking
environment.stop(delete=True), writing result.json, writing
compilation.log. -/
inductive TrialEvent
  | writeConfig
  | writeExceptionFile
  | stopDelete
  | writeResultFile
  | writeCompilationLog
deriving Repr, DecidableEq

/-- Oracle for the effectful steps of run_trial: whether start, workspace
setup and verification return normally or raise, and whether the final stop
raises (its outcome is swallowed by the source). -/
structure TrialBehavior where
  startOutcome : Except PyExn Unit
  setupOutcome : Except PyExn Unit
  verifyOutcome : Except PyExn VerificationResult
  stopOutcome : Except PyExn Unit
deriving Repr

/-- run_trial (utils/trial.py lines 13-100) and its event trace.  The
TrialResult starts with started_at and identity fields; config.json is
written before the environment exists.  The try-block runs start, setup
and verify in order; the first exception is converted into ExceptionInfo
and exception.txt is written.  The finally-block always invokes
stop(delete=True) — its own exception is swallowed, so the event is
recorded regardless of b.stopOutcome — stamps finished_at, writes
result.json, and writes compilation.log iff a VerificationResult exists.
t0 and t1 are the two datetime.now() readings. -/
def run_trial (cfg : TrialConfig) (b : TrialBehavior) (t0 t1 : Nat) :
    TrialResult × List TrialEvent :=
  let result0 : TrialResult :=
    { trial_id := cfg.trial_id
      trial_name := cfg.trial_name
      task_id := cfg.task.task_id
      pr_url := cfg.pr_info.pr_url
      pr_number := cfg.pr_info.pr_number
      verification_result := none
      exception_info := none
      started_at := some t0
      finished_at := none
      trial_dir := cfg.output_dir ++ "/" ++ cfg.trial_id }
  let ev0 : List TrialEvent := [TrialEvent.writeConfig]
  let tryOutcome : TrialResult × List TrialEvent :=
    match b.startOutcome with
    | Except.error e =>
        ({ result0 with exception_info := some ⟨e.ty, e.msg, e.tb⟩ },
         ev0 ++ [TrialEvent.writeExceptionFile])
    | Except.ok _ =>
        match b.setupOutcome with
        | Except.error e =>
            ({ result0 with exception_info := some ⟨e.ty, e.msg, e.tb⟩ },
             ev0 ++ [TrialEvent.writeExceptionFile])
        | Except.ok _ =>
            match b.verifyOutcome with
            | Except.error e =>
                ({ result0 with exception_info := some ⟨e.ty, e.msg, e.tb⟩ },
                 ev0 ++ [TrialEvent.writeExceptionFile])
            | Except.ok vr =>
                ({ result0 with verification_result := some vr }, ev0)
  let ev1 := tryOutcome.2 ++ [TrialEvent.stopDelete]
  let result1 := { tryOutcome.1 with finished_at := some t1 }
  let ev2 := ev1 ++ [TrialEvent.writeResultFile]
  let ev3 :=
    if result1.verification_result.isSome then
      ev2 ++ [TrialEvent.writeCompilationLog]
    else ev2
  (result1, ev3)

/-- Python str.strip() on its whitespace set, restricted to the ASCII
whitespace characters (space, tab, newline, carriage return, vertical tab,
form feed). -/
def pyIsSpace (c : Char) : Bool :=
  c = ' ' || c = '\t' || c = '\n' || c = '\r' ||
    c = Char.ofNat 11 || c = Char.ofNat 12

/-- Python str.strip(): drop leading and trailing whitespace. -/
def pyStrip (s : String) : String :=
  String.mk (((s.toList.dropWhile pyIsSpace).reverse.dropWhile
    pyIsSpace).reverse)

/-- The verified judgement of run_compose (compose_commands.py lines
104-130): result.txt missing means not verified; otherwise verified iff
read_text().strip() equals the string 1.  The argument is the file's
content when it exists. -/
def runComposeVerified (content? : Option String) : Bool :=
  match content? with
  | some s => pyStrip s == "1"
  | none => false

/-- The verified judgement of the batch path _run_single_compose_task
(compose_commands.py lines 274-299): identical check on result.txt. -/
def runSingleComposeTaskVerified (content? : Option String) : Bool :=
  match content? with
  | some s => pyStrip s == "1"
  | none => false

/-- The claim C8 as literally stated, for comparison with the code:
verified iff the file exists and contains exactly the string 1. -/
def claimC8Verified (content? : Option String) : Bool :=
  match content? with
  | some s => s == "1"
  | none => false

/-- An ExecResult with exit code zero and empty streams. -/
def execZero : ExecResult :=
  { stdout := "", stderr := "", return_code := 0, duration_sec := 0 }

/-- Concrete setup oracle where the clone step fails with exit 128. -/
def execStepCloneFails : SetupStep → ExecResult
  | SetupStep.clone =>
      { stdout := ""
        stderr := "fatal: Remote branch not found"
        return_code := 128
        duration_sec := 1 }
  | _ => { stdout := "", stderr := "", return_code := 0, duration_sec := 1 }

/-- Concrete verifier oracle where the wrapper probe itself raises. -/
def envWrapperExn : VerifierEnvBehavior :=
  { wrapperCheck :=
      Except.error { ty := "RuntimeError", msg := "Container not started",
                     tb := "tb" }
    chmodWrapper := Except.ok execZero
    build := Except.ok execZero }

/-- Concrete verifier oracle: no wrapper, build exits 1 with stderr text. -/
def envBuildFails : VerifierEnvBehavior :=
  { wrapperCheck :=
      Except.ok { stdout := "no\n", stderr := "", return_code := 0,
                  duration_sec := 0 }
    chmodWrapper := Except.ok execZero
    build :=
      Except.ok { stdout := "build output", stderr := "compile error",
                  return_code := 1, duration_sec := 2 } }

/-- Concrete verifier oracle: wrapper present, chmod exits nonzero. -/
def envChmodFails : VerifierEnvBehavior :=
  { wrapperCheck :=
      Except.ok { stdout := "yes\n", stderr := "", return_code := 0,
                  duration_sec := 0 }
    chmodWrapper :=
      Except.ok { stdout := "", stderr := "chmod: operation not permitted",
                  return_code := 1, duration_sec := 0 }
    build := Except.ok execZero }

/-- A successful raw backend output. -/
def rawSample : RawExecOutput :=
  { stdout? := some "ok", stderr? := none, exit_code := 0 }

/-- A backend transport exception. -/
def pyExnSample : PyExn :=
  { ty := "APIError", msg := "transport failure", tb := "tb" }

/-- Helper: whenever the build call appears in the verifier's trace, the
whole run is the build tail applied to the build call's outcome. -/
theorem verifyRun_build_eq (env : VerifierEnvBehavior) (elapsed : Nat)
    (hmem : VerifierCall.build ∈ (verifyRun env elapsed).2) :
    ∃ calls, verifyRun env elapsed = gradleRunBuild env.build elapsed calls := by
  cases hwc : env.wrapperCheck with
  | error e => simp [verifyRun, hwc] at hmem
  | ok wc =>
      by_cases hyes : containsSubstr wc.stdout "yes" = true
      · cases hch : env.chmodWrapper with
        | error e => simp [verifyRun, hwc, hyes, hch] at hmem
        | ok ch =>
            by_cases hz : ch.return_code = 0
            · exact ⟨[VerifierCall.wrapperCheck, VerifierCall.chmodWrapper],
                by simp [verifyRun, hwc, hyes, hch, hz]⟩
            · simp [verifyRun, hwc, hyes, hch, hz] at hmem
      · exact ⟨[VerifierCall.wrapperCheck], by simp [verifyRun, hwc, hyes]⟩

/-- C1: for every trial run by run_trial, whichever of start, setup or
verification fails (or none), the environment's stop(delete=True) path is
invoked exactly once and the TrialResult is serialized to result.json
exactly once. -/
theorem C1_cleanup_and_result_once (cfg : TrialConfig) (b : TrialBehavior)
    (t0 t1 : Nat) :
    (run_trial cfg b t0 t1).2.count TrialEvent.stopDelete = 1 ∧
    (run_trial cfg b t0 t1).2.count TrialEvent.writeResultFile = 1 := by
  obtain ⟨so, su, vo, st⟩ := b
  cases so <;> cases su <;> cases vo <;> exact ⟨rfl, rfl⟩

/-- C2: TrialResult.success is true exactly when exception_info is None,
verification_result is present, and that verification succeeded. -/
theorem C2_trial_success_iff (r : TrialResult) :
    r.success = true ↔
      r.exception_info = none ∧
        ∃ v, r.verification_result = some v ∧ v.success = true := by
  obtain ⟨_, _, _, _, _, vr, ei, _, _, _⟩ := r
  cases ei <;> cases vr <;> simp [TrialResult.success]

/-- C3: setup_pr_workspace runs clone, fetch, checkout, branch, merge in
order; a nonzero exit of any of the first four raises with the matching
message and stops there, while the merge step's outcome is never checked:
with the first four succeeding, setup returns ok and executes the merge,
whatever the merge command's result. -/
theorem C3_setup_steps (execStep : SetupStep → ExecResult) :
    ((execStep SetupStep.clone).return_code ≠ 0 →
      setup_pr_workspace true execStep =
        (Except.error ("Failed to clone repository: " ++
            (execStep SetupStep.clone).stderr),
         [SetupStep.clone])) ∧
    ((execStep SetupStep.clone).return_code = 0 →
      (execStep SetupStep.fetch).return_code ≠ 0 →
      setup_pr_workspace true execStep =
        (Except.error ("Failed to fetch PR: " ++
            (execStep SetupStep.fetch).stderr),
         [SetupStep.clone, SetupStep.fetch])) ∧
    ((execStep SetupStep.clone).return_code = 0 →
      (execStep SetupStep.fetch).return_code = 0 →
      (execStep SetupStep.checkout).return_code ≠ 0 →
      setup_pr_workspace true execStep =
        (Except.error ("Failed to checkout target commit: " ++
            (execStep SetupStep.checkout).stderr),
         [SetupStep.clone, SetupStep.fetch, SetupStep.checkout])) ∧
    ((execStep SetupStep.clone).return_code = 0 →
      (execStep SetupStep.fetch).return_code = 0 →
      (execStep SetupStep.checkout).return_code = 0 →
      (execStep SetupStep.branch).return_code ≠ 0 →
      setup_pr_workspace true execStep =
        (Except.error ("Failed to create merge branch: " ++
            (execStep SetupStep.branch).stderr),
         [SetupStep.clone, SetupStep.fetch, SetupStep.checkout,
          SetupStep.branch])) ∧
    ((execStep SetupStep.clone).return_code = 0 →
      (execStep SetupStep.fetch).return_code = 0 →
      (execStep SetupStep.checkout).return_code = 0 →
      (execStep SetupStep.branch).return_code = 0 →
      setup_pr_workspace true execStep =
        (Except.ok (),
         [SetupStep.clone, SetupStep.fetch, SetupStep.checkout,
          SetupStep.branch, SetupStep.merge])) := by
  refine ⟨?_, ?_, ?_, ?_, ?_⟩
  · intro h1
    simp [setup_pr_workspace, h1]
  · intro h1 h2
    simp [setup_pr_workspace, h1, h2]
  · intro h1 h2 h3
    simp [setup_pr_workspace, h1, h2, h3]
  · intro h1 h2 h3 h4
    simp [setup_pr_workspace, h1, h2, h3, h4]
  · intro h1 h2 h3 h4
    simp [setup_pr_workspace, h1, h2, h3, h4]

/-- C3 witness: a failing clone step yields the clone error and no later
step runs. -/
theorem C3_setup_steps_witness :
    setup_pr_workspace true execStepCloneFails =
      (Except.error
         "Failed to clone repository: fatal: Remote branch not found",
       [SetupStep.clone]) :=
  (C3_setup_steps execStepCloneFails).1 (by decide)

/-- C4: verify is a total function of the environment's behavior (it never
raises); whichever exec call raises first — the wrapper probe, the chmod,
or the build — the exception is converted into a VerificationResult with
success false, the exception text as compilation_output, and a non-None
error_message. -/
theorem C4_verify_never_raises (env : VerifierEnvBehavior) (elapsed : Nat) :
    (∀ e : PyExn, env.wrapperCheck = Except.error e →
      (verifyRun env elapsed).1.success = false ∧
      (verifyRun env elapsed).1.compilation_output = e.msg ∧
      (verifyRun env elapsed).1.error_message ≠ none) ∧
    (∀ (wc : ExecResult) (e : PyExn), env.wrapperCheck = Except.ok wc →
      containsSubstr wc.stdout "yes" = true →
      env.chmodWrapper = Except.error e →
      (verifyRun env elapsed).1.success = false ∧
      (verifyRun env elapsed).1.compilation_output = e.msg ∧
      (verifyRun env elapsed).1.error_message ≠ none) ∧
    (∀ e : PyExn, env.build = Except.error e →
      VerifierCall.build ∈ (verifyRun env elapsed).2 →
      (verifyRun env elapsed).1.success = false ∧
      (verifyRun env elapsed).1.compilation_output = e.msg ∧
      (verifyRun env elapsed).1.error_message ≠ none) := by
  refine ⟨?_, ?_, ?_⟩
  · intro e he
    simp [verifyRun, he]
  · intro wc e hwc hyes hch
    simp [verifyRun, hwc, hyes, hch]
  · intro e hb hmem
    obtain ⟨calls, h⟩ := verifyRun_build_eq env elapsed hmem
    rw [h, hb]
    simp [gradleRunBuild]

/-- C4 witness: a raising wrapper probe is converted into a failed result
carrying the exception text. -/
theorem C4_verify_never_raises_witness :
    (verifyRun envWrapperExn 5).1.success = false ∧
    (verifyRun envWrapperExn 5).1.compilation_output =
      "Container not started" ∧
    (verifyRun envWrapperExn 5).1.error_message ≠ none :=
  (C4_verify_never_raises envWrapperExn 5).1
    { ty := "RuntimeError", msg := "Container not started", tb := "tb" } rfl

/-- C5: when the build command runs and returns, success is exactly "exit
code equals zero"; on nonzero exit the error message is the fixed
compilation-failed text (and None on success); in both cases the output is
stdout, a newline, then stderr, and tasks_run is clean then build. -/
theorem C5_build_semantics (env : VerifierEnvBehavior) (elapsed : Nat)
    (r : ExecResult) (hb : env.build = Except.ok r)
    (hmem : VerifierCall.build ∈ (verifyRun env elapsed).2) :
    (verifyRun env elapsed).1.success = (r.return_code == 0) ∧
    (r.return_code ≠ 0 →
      (verifyRun env elapsed).1.error_message =
        some "Compilation failed - see output") ∧
    (r.return_code = 0 → (verifyRun env elapsed).1.error_message = none) ∧
    (verifyRun env elapsed).1.compilation_output =
      r.stdout ++ "\n" ++ r.stderr ∧
    (verifyRun env elapsed).1.tasks_run = ["clean", "build"] := by
  obtain ⟨calls, h⟩ := verifyRun_build_eq env elapsed hmem
  rw [h, hb]
  refine ⟨rfl, ?_, ?_, rfl, rfl⟩
  · intro hnz
    simp [gradleRunBuild, hnz]
  · intro hz
    simp [gradleRunBuild, hz]

/-- C5 witness: a build exiting 1 with stderr text yields a failed result
with the fixed error message, concatenated output, and both tasks
recorded. -/
theorem C5_build_semantics_witness :
    (verifyRun envBuildFails 7).1.success = false ∧
    (verifyRun envBuildFails 7).1.error_message =
      some "Compilation failed - see output" ∧
    (verifyRun envBuildFails 7).1.compilation_output =
      "build output\ncompile error" ∧
    (verifyRun envBuildFails 7).1.tasks_run = ["clean", "build"] := by
  have h := C5_build_semantics envBuildFails 7
    { stdout := "build output", stderr := "compile error",
      return_code := 1, duration_sec := 2 }
    rfl (by decide)
  exact ⟨h.1.trans (by decide), h.2.1 (by decide),
    h.2.2.2.1.trans rfl, h.2.2.2.2⟩

/-- C6: exec raises the not-started error when the container is absent;
once started, a backend failure is not propagated but converted into a
synthetic ExecResult with return code 1, empty stdout, and the failure
description in stderr. -/
theorem C6_exec_contract (backend : Except PyExn RawExecOutput)
    (elapsed : Nat) :
    dockerExec false backend elapsed =
      Except.error "Container not started" ∧
    (∀ e : PyExn, backend = Except.error e →
      dockerExec true backend elapsed =
        Except.ok { stdout := "", stderr := e.msg, return_code := 1,
                    duration_sec := elapsed }) := by
  refine ⟨rfl, ?_⟩
  intro e he
  simp [dockerExec, he]

/-- C6 witness: at a concrete backend failure the synthetic result is
returned, and before start the call fails. -/
theorem C6_exec_contract_witness :
    dockerExec false (Except.ok rawSample) 3 =
      Except.error "Container not started" ∧
    dockerExec true (Except.error pyExnSample) 3 =
      Except.ok { stdout := "", stderr := "transport failure",
                  return_code := 1, duration_sec := 3 } :=
  ⟨(C6_exec_contract (Except.ok rawSample) 3).1,
   (C6_exec_contract (Except.error pyExnSample) 3).2 pyExnSample rfl⟩

/-- C7: with the wrapper present but chmod exiting nonzero, verify returns
success false with the fixed error message, an empty tasks_run, and never
executes the build command. -/
theorem C7_chmod_failure (env : VerifierEnvBehavior) (elapsed : Nat)
    (wc ch : ExecResult)
    (hwc : env.wrapperCheck = Except.ok wc)
    (hyes : containsSubstr wc.stdout "yes" = true)
    (hch : env.chmodWrapper = Except.ok ch)
    (hnz : ch.return_code ≠ 0) :
    (verifyRun env elapsed).1.success = false ∧
    (verifyRun env elapsed).1.error_message =
      some "Failed to make gradlew executable" ∧
    (verifyRun env elapsed).1.tasks_run = [] ∧
    VerifierCall.build ∉ (verifyRun env elapsed).2 := by
  simp [verifyRun, hwc, hyes, hch, hnz]

/-- C7 witness: concrete wrapper-present, chmod-fails oracle. -/
theorem C7_chmod_failure_witness :
    (verifyRun envChmodFails 4).1.success = false ∧
    (verifyRun envChmodFails 4).1.error_message =
      some "Failed to make gradlew executable" ∧
    (verifyRun envChmodFails 4).1.tasks_run = [] ∧
    VerifierCall.build ∉ (verifyRun envChmodFails 4).2 :=
  C7_chmod_failure envChmodFails 4 _ _ rfl (by decide) rfl (by decide)

/-- C8 counterexample: a result.txt containing the string 1 followed by a
newline is judged verified by run_compose, although its content is not
exactly the string 1 — the code strips whitespace before comparing. -/
theorem C8_counterexample :
    runComposeVerified (some "1\n") = true ∧
    claimC8Verified (some "1\n") = false :=
  ⟨rfl, rfl⟩

/-- C8 (amended): a task is judged verified iff result.txt exists and its
content, after stripping leading and trailing whitespace, equals the
string 1; a missing file is never verified; the single-task and batch
paths agree. -/
theorem C8_amended_strip_semantics (content? : Option String) :
    (runComposeVerified content? = true ↔
      ∃ s, content? = some s ∧ pyStrip s = "1") ∧
    runSingleComposeTaskVerified content? = runComposeVerified content? := by
  constructor
  · cases content? with
    | none => simp [runComposeVerified]
    | some s => simp [runComposeVerified]
  · cases content? <;> rfl

/-- C10: once the environment is started, upload_file and download_file
return successfully whatever the docker cp subprocess did; the outcome is
discarded, so any two subprocess behaviors are indistinguishable at the
public interface. -/
theorem C10_file_transfer_opaque (s1 s2 : SubprocOutcome) :
    upload_file true s1 = Except.ok () ∧
    download_file true s1 = Except.ok () ∧
    upload_file true s1 = upload_file true s2 ∧
    download_file true s1 = download_file true s2 :=
  ⟨rfl, rfl, rfl, rfl⟩
